import Mathlib

/-!
Shallow embedding of the backend in src/code-assist-backend.py.

The two route handlers, extract_route (POST /api/extract) and generate_route
(POST /api/generate), are modelled as pure functions.  External calls
(Mistral OCR, Mistral chat completion, json.loads, the Groq invoke) are
modelled as oracles supplied in an environment record: each oracle maps the
inputs the source passes to the call to the outcome the call produced
(success value, SDKError with its message, an httpx connection-class error,
or any other exception).  The retry loop of extract_route is translated as
structural recursion on the fuel max_retries - attempt; since every loop
iteration either exits or increments attempt by exactly one, the fuel
faithfully mirrors the while condition attempt < max_retries.  The trace
records, besides the returned value or HTTP error, the sleeps performed,
the number of OCR and chat executions, the number of loop iterations, the
final value of the image_ocr_md local, and which exit path produced the
result.
-/

namespace CodeAssist

/-- JSON values, the shape of request fields and of what json.loads returns. -/
inductive JsonVal where
  | str : String → JsonVal
  | num : Int → JsonVal
  | bool : Bool → JsonVal
  | null : JsonVal
  | arr : List JsonVal → JsonVal
  | obj : List (String × JsonVal) → JsonVal

/-- What a route hands back to the transport: a JSON value returned
normally, or a raised HTTPException with status code and detail. -/
inductive RouteResult where
  | ok : JsonVal → RouteResult
  | httpError : Nat → String → RouteResult

/-- Python s[:n]: the first n characters. -/
def pyTake (s : String) (n : Nat) : String := ⟨s.data.take n⟩

/-- Python whitespace characters stripped by str.strip(). -/
def isSpaceChar (c : Char) : Bool :=
  c = ' ' || c = '\t' || c = '\n' || c = '\r' || c = '\x0b' || c = '\x0c'

/-- Python str.strip(): drop leading and trailing whitespace. -/
def pyStrip (s : String) : String :=
  ⟨((s.data.dropWhile isSpaceChar).reverse.dropWhile isSpaceChar).reverse⟩

/-- pat matches at the head of the character list. -/
def charsMatch : List Char → List Char → Bool
  | [], _ => true
  | _ :: _, [] => false
  | a :: as, b :: bs => a == b && charsMatch as bs

/-- pat occurs somewhere in the character list. -/
def charsHasSub (pat : List Char) : List Char → Bool
  | [] => charsMatch pat []
  | c :: rest => charsMatch pat (c :: rest) || charsHasSub pat rest

/-- Python `pat in s`: substring containment. -/
def occursIn (pat s : String) : Bool := charsHasSub pat.data s.data

/-- The substring the source uses to classify an SDKError as a rate limit. -/
def rateLimitText : String := "Requests rate limit exceeded"

def emptyImagesMsg : String := "imageDataList cannot be empty."

def genericLimitMsg : String :=
  "Unable to process image due to API rate limits. Please try again later."

def netErrMsg : String := "Network error when connecting to API services."

def maxRetriesMsg : String := "Failed to process image after maximum retries."

/-- Detail string of the catch-all 500 handler. -/
def unexpectedMsg (e : String) : String := "An unexpected error occurred: " ++ e

def badProblemInfoMsg : String := "problemInfo must be a non-empty string."

/-- Degraded payload returned when rate-limit retries exhaust with no
partial OCR output used. -/
def genericLimitPayload (language : String) : JsonVal :=
  .obj [("problemInfo", .str genericLimitMsg), ("language", .str language)]

/-- Degraded payload returned at chat rate-limit exhaustion when
image_ocr_md is in locals. -/
def ocrDegradedPayload (md language : String) : JsonVal :=
  .obj [("problemInfo",
          .str ("API rate limited. Raw OCR text: " ++ pyTake md 500 ++ "...")),
        ("language", .str language)]

/-- Fallback payload returned when json.loads fails on the chat content. -/
def parseFallbackPayload (content language : String) : JsonVal :=
  .obj [("problemInfo",
          .str ("Error parsing response. Raw content: " ++ pyTake content 500 ++ "...")),
        ("language", .str language)]

/-- Outcome of one execution of client.ocr.process. -/
inductive OcrOutcome where
  | ok : String → OcrOutcome
  | sdkError : String → OcrOutcome
  | netError : OcrOutcome
  | otherError : String → OcrOutcome

/-- Outcome of one execution of client.chat.complete. -/
inductive ChatOutcome where
  | ok : String → ChatOutcome
  | sdkError : String → ChatOutcome
  | netError : ChatOutcome
  | otherError : String → ChatOutcome

/-- Oracles for the external calls made by extract_route.  ocr takes the
attempt counter value at the call and the base64 image data; chat takes
additionally the OCR markdown interpolated into its prompt; parse models
json.loads (none is a JSONDecodeError). -/
structure ExtractEnv where
  ocr : Nat → String → OcrOutcome
  chat : Nat → String → String → ChatOutcome
  parse : String → Option JsonVal

/-- Body of POST /api/extract. -/
structure ExtractRequest where
  imageDataList : List String
  language : Option String

/-- The mutable locals of the retry loop, plus instrumentation counters. -/
structure ExtractState where
  attempt : Nat
  backoff : Nat
  ocrMd : Option String
  sleeps : List Nat
  ocrCalls : Nat
  chatCalls : Nat
  iterations : Nat

/-- Which exit produced the result. -/
inductive ExitPath where
  | parsed
  | parseFallback
  | ocrExhaust
  | chatExhaustWithMd
  | chatExhaustNoMd
  | netExhaust
  | unexpected
  | badRequest
  | fuelOut
  deriving DecidableEq

structure ExtractTrace where
  result : RouteResult
  final : ExtractState
  exit : ExitPath

/-- The while loop of extract_route, by recursion on remaining fuel
(max_retries - attempt).  Fuel 0 is the fall-through raise after the while
condition fails. -/
def extractLoop (env : ExtractEnv) (language b64 : String) (maxRetries : Nat) :
    Nat → ExtractState → ExtractTrace
  | 0, st => ⟨.httpError 500 maxRetriesMsg, st, .fuelOut⟩
  | n + 1, st =>
    let st0 : ExtractState := { st with iterations := st.iterations + 1 }
    match env.ocr st.attempt b64 with
    | .ok md =>
      let st1 : ExtractState := { st0 with ocrCalls := st0.ocrCalls + 1, ocrMd := some md }
      match env.chat st.attempt b64 md with
      | .ok content =>
        let st2 : ExtractState := { st1 with chatCalls := st1.chatCalls + 1 }
        match env.parse content with
        | some v => ⟨.ok v, st2, .parsed⟩
        | none => ⟨.ok (parseFallbackPayload content language), st2, .parseFallback⟩
      | .sdkError msg =>
        let st2 : ExtractState := { st1 with chatCalls := st1.chatCalls + 1 }
        if occursIn rateLimitText msg then
          if st.attempt + 1 = maxRetries then
            match st2.ocrMd with
            | some m =>
              ⟨.ok (ocrDegradedPayload m language),
                { st2 with attempt := st.attempt + 1 }, .chatExhaustWithMd⟩
            | none =>
              ⟨.ok (genericLimitPayload language),
                { st2 with attempt := st.attempt + 1 }, .chatExhaustNoMd⟩
          else
            extractLoop env language b64 maxRetries n
              { st2 with attempt := st.attempt + 1, backoff := st2.backoff * 2,
                         sleeps := st2.sleeps ++ [st2.backoff] }
        else ⟨.httpError 500 (unexpectedMsg msg), st2, .unexpected⟩
      | .netError =>
        let st2 : ExtractState := { st1 with chatCalls := st1.chatCalls + 1 }
        if st.attempt + 1 = maxRetries then
          ⟨.httpError 503 netErrMsg, { st2 with attempt := st.attempt + 1 }, .netExhaust⟩
        else
          extractLoop env language b64 maxRetries n
            { st2 with attempt := st.attempt + 1, backoff := st2.backoff * 2,
                       sleeps := st2.sleeps ++ [st2.backoff] }
      | .otherError msg =>
        let st2 : ExtractState := { st1 with chatCalls := st1.chatCalls + 1 }
        ⟨.httpError 500 (unexpectedMsg msg), st2, .unexpected⟩
    | .sdkError msg =>
      let st1 : ExtractState := { st0 with ocrCalls := st0.ocrCalls + 1 }
      if occursIn rateLimitText msg then
        if st.attempt + 1 = maxRetries then
          ⟨.ok (genericLimitPayload language),
            { st1 with attempt := st.attempt + 1 }, .ocrExhaust⟩
        else
          extractLoop env language b64 maxRetries n
            { st1 with attempt := st.attempt + 1, backoff := st1.backoff * 2,
                       sleeps := st1.sleeps ++ [st1.backoff] }
      else ⟨.httpError 500 (unexpectedMsg msg), st1, .unexpected⟩
    | .netError =>
      let st1 : ExtractState := { st0 with ocrCalls := st0.ocrCalls + 1 }
      if st.attempt + 1 = maxRetries then
        ⟨.httpError 503 netErrMsg, { st1 with attempt := st.attempt + 1 }, .netExhaust⟩
      else
        extractLoop env language b64 maxRetries n
          { st1 with attempt := st.attempt + 1, backoff := st1.backoff * 2,
                     sleeps := st1.sleeps ++ [st1.backoff] }
    | .otherError msg =>
      let st1 : ExtractState := { st0 with ocrCalls := st0.ocrCalls + 1 }
      ⟨.httpError 500 (unexpectedMsg msg), st1, .unexpected⟩

def initExtractState : ExtractState :=
  { attempt := 0, backoff := 2, ocrMd := none, sleeps := [],
    ocrCalls := 0, chatCalls := 0, iterations := 0 }

/-- POST /api/extract handler: language default, empty-list 400 check,
then the retry loop on the first image with max_retries = 5 and initial
backoff_time = 2. -/
def extract_route (env : ExtractEnv) (req : ExtractRequest) : ExtractTrace :=
  let language := req.language.getD "python"
  match req.imageDataList with
  | [] => ⟨.httpError 400 emptyImagesMsg, initExtractState, .badRequest⟩
  | b64 :: _ => extractLoop env language b64 5 5 initExtractState

/-- The guard of generate_route: problemInfo must be a string whose strip
is non-empty. -/
def problemInfoOk : Option JsonVal → Bool
  | some (.str s) => !(pyStrip s).data.isEmpty
  | _ => false

/-- Body of POST /api/generate. -/
structure GenerateRequest where
  problemInfo : Option JsonVal
  language : Option String

/-- Outcome of the groq_llm.invoke call. -/
inductive GenOutcome where
  | ok : String → GenOutcome
  | err : String → GenOutcome

/-- POST /api/generate handler: 400 unless problemInfo is a non-empty
string, then return the generated content, or 500 on any exception. -/
def generate_route (out : GenOutcome) (req : GenerateRequest) : RouteResult :=
  if !(problemInfoOk req.problemInfo) then .httpError 400 badProblemInfoMsg
  else
    match out with
    | .ok content => .ok (.obj [("code", .str content)])
    | .err msg => .httpError 500 msg

/-- Exits whose payload is a degraded or fallback dictionary built by the
handler itself (as opposed to the parsed model response or a raised
HTTPException). -/
def degradedExit : ExitPath → Bool
  | .parseFallback => true
  | .ocrExhaust => true
  | .chatExhaustWithMd => true
  | .chatExhaustNoMd => true
  | _ => false

/-- A request with a single image and no language field. -/
def reqOne : ExtractRequest := { imageDataList := ["imgdata"], language := none }

/-- Environment where OCR always succeeds and the chat call always raises a
connection-class error. -/
def envNetAfterOcr : ExtractEnv :=
  { ocr := fun _ _ => .ok "OCRTEXT",
    chat := fun _ _ _ => .netError,
    parse := fun _ => none }

/-- Environment where OCR always raises a rate-limit SDKError. -/
def envOcrAlwaysRL : ExtractEnv :=
  { ocr := fun _ _ => .sdkError rateLimitText,
    chat := fun _ _ _ => .ok "x",
    parse := fun _ => none }

/-- Environment where OCR succeeds and the chat call always raises a
rate-limit SDKError. -/
def envChatAlwaysRL : ExtractEnv :=
  { ocr := fun _ _ => .ok "OCRTEXT",
    chat := fun _ _ _ => .sdkError rateLimitText,
    parse := fun _ => none }

/-- Environment where OCR succeeds on attempts 0..3 and is rate limited on
attempt 4, while the chat call is always rate limited: retries exhaust at
the OCR stage while OCR text from an earlier iteration is in locals. -/
def envOcrRLAtEnd : ExtractEnv :=
  { ocr := fun i _ => if i = 4 then .sdkError rateLimitText else .ok "OCRPARTIAL",
    chat := fun _ _ _ => .sdkError rateLimitText,
    parse := fun _ => none }

/-- Environment where both calls succeed but the chat content is not valid
JSON. -/
def envParseFail : ExtractEnv :=
  { ocr := fun _ _ => .ok "OCRTEXT",
    chat := fun _ _ _ => .ok "not json",
    parse := fun _ => none }

/-- Environment where the OCR call raises an unclassified exception. -/
def envOcrOther : ExtractEnv :=
  { ocr := fun _ _ => .otherError "boom",
    chat := fun _ _ _ => .ok "x",
    parse := fun _ => none }

/-- Environment whose OCR output differs between attempt 0 and attempt 1,
whose chat call is rate limited on attempt 0 and succeeds on attempt 1 only
when given the attempt-1 OCR output, and whose parse succeeds on that
content. -/
def envRestart : ExtractEnv :=
  { ocr := fun i _ => if i = 0 then .ok "FIRSTMD" else .ok "SECONDMD",
    chat := fun i _ md =>
      if i = 0 then .sdkError rateLimitText
      else if md = "SECONDMD" then .ok "goodjson" else .otherError "stale ocr text",
    parse := fun s => if s = "goodjson" then some (.obj []) else none }

/-- Environment where both calls succeed and the content parses to a JSON
array, a value without the problemInfo or language keys. -/
def envParsePass : ExtractEnv :=
  { ocr := fun _ _ => .ok "OCRTEXT",
    chat := fun _ _ _ => .ok "[]",
    parse := fun _ => some (.arr []) }

/-- A generate request whose problemInfo has the object shape the
interface section of the spec admits. -/
def reqGenObj : GenerateRequest :=
  { problemInfo := some (.obj [("title", .str "Two Sum"),
                              ("problem", .str "Find two indices"),
                              ("code", .str "def f(): pass")]),
    language := none }

/-- A generate request with a plain non-empty string problemInfo. -/
def reqGenGood : GenerateRequest :=
  { problemInfo := some (.str "Sum two numbers"), language := none }

/-- The rate-limit marker occurs in itself. -/
theorem occursIn_rateLimit_self : occursIn rateLimitText rateLimitText = true := by decide

/-- Each loop iteration either exits or recurses with one unit of fuel
less, so the iteration counter grows by at most the fuel. -/
theorem extractLoop_iterations_le (env : ExtractEnv) (language b64 : String) (mr : Nat) :
    ∀ n st, (extractLoop env language b64 mr n st).final.iterations ≤ st.iterations + n := by
  intro n
  induction n with
  | zero => intro st; simp [extractLoop]
  | succ n ih =>
    intro st
    simp only [extractLoop]
    repeat' split
    all_goals first
      | (dsimp only; omega)
      | (exact le_trans (ih _) (by dsimp only; omega))

/-- Every run either produces a degraded or fallback dictionary whose
language field is the language argument, or does not exit through a
degraded path at all. -/
theorem extractLoop_degraded_or (env : ExtractEnv) (language b64 : String) (mr : Nat) :
    ∀ n st,
      (∃ p, (extractLoop env language b64 mr n st).result =
          .ok (.obj [("problemInfo", .str p), ("language", .str language)])) ∨
      degradedExit (extractLoop env language b64 mr n st).exit = false := by
  intro n
  induction n with
  | zero => intro st; right; rfl
  | succ n ih =>
    intro st
    simp only [extractLoop]
    repeat' split
    all_goals first
      | (right; rfl)
      | (left; exact ⟨_, rfl⟩)
      | (exact ih _)

/-- C8: for every behaviour of the external calls and every request, the
retry loop of the /api/extract handler runs at most max_retries = 5
iterations: every retryable path increments the shared attempt counter
before re-entering the loop and every other path exits by returning or
raising. -/
theorem C8_theorem (env : ExtractEnv) (req : ExtractRequest) :
    (extract_route env req).final.iterations ≤ 5 := by
  rcases req with ⟨images, lang⟩
  cases images with
  | nil => simp [extract_route, initExtractState]
  | cons b rest =>
    have h := extractLoop_iterations_le env (lang.getD "python") b 5 5 initExtractState
    simpa [extract_route, initExtractState] using h

/-- C9: every degraded or fallback payload of /api/extract (rate-limit
exhaustion at either stage and the JSON parse fallback) carries a language
field equal to the request body language, defaulting to python when the
request omits it. -/
theorem C9_theorem (env : ExtractEnv) (req : ExtractRequest)
    (h : degradedExit (extract_route env req).exit = true) :
    ∃ p, (extract_route env req).result =
      .ok (.obj [("problemInfo", .str p),
                 ("language", .str (req.language.getD "python"))]) := by
  rcases req with ⟨images, lang⟩
  cases images with
  | nil => simp [extract_route, degradedExit] at h
  | cons b rest =>
    have hre : extract_route env ⟨b :: rest, lang⟩ =
        extractLoop env (lang.getD "python") b 5 5 initExtractState := rfl
    rw [hre] at h ⊢
    rcases extractLoop_degraded_or env (lang.getD "python") b 5 5 initExtractState with hd | hd
    · exact hd
    · rw [hd] at h; cases h

/-- C9 witness: a run hitting the JSON parse fallback carries the default
language python. -/
theorem C9_witness :
    ∃ p, (extract_route envParseFail reqOne).result =
      .ok (.obj [("problemInfo", .str p),
                 ("language", .str (reqOne.language.getD "python"))]) :=
  C9_theorem envParseFail reqOne (by decide)

/-- C1 counterexample: with OCR succeeding on every attempt and the chat
call raising a connection-class error on every attempt, retries exhaust
while partial output (the OCR markdown, still in locals) exists, yet the
handler raises a fatal HTTP 503 instead of returning a degraded payload. -/
theorem C1_counterexample :
    (extract_route envNetAfterOcr reqOne).result = .httpError 503 netErrMsg ∧
    (extract_route envNetAfterOcr reqOne).final.ocrMd = some "OCRTEXT" :=
  ⟨rfl, rfl⟩

/-- C1 amended: exhaustion of TransientNetwork (connection) retries raises
a fatal HTTP 503 even when the OCR stage has succeeded and its markdown is
available as partial output; that partial output is not used to build a
degraded payload on the network-exhaustion path. -/
theorem C1_theorem (env : ExtractEnv) (req : ExtractRequest)
    (b64 : String) (rest : List String) (him : req.imageDataList = b64 :: rest)
    (mds : Nat → String)
    (hocr : ∀ i bd, env.ocr i bd = .ok (mds i))
    (hchat : ∀ i bd md, env.chat i bd md = .netError) :
    (extract_route env req).result = .httpError 503 netErrMsg ∧
    (extract_route env req).final.ocrMd = some (mds 4) := by
  simp [extract_route, him, extractLoop, hocr, hchat, initExtractState]

/-- C1 witness: the amended statement at a concrete environment. -/
theorem C1_witness :
    (extract_route envNetAfterOcr reqOne).result = .httpError 503 netErrMsg ∧
    (extract_route envNetAfterOcr reqOne).final.ocrMd = some "OCRTEXT" :=
  C1_theorem envNetAfterOcr reqOne "imgdata" [] rfl (fun _ => "OCRTEXT")
    (fun _ _ => rfl) (fun _ _ _ => rfl)

/-- C2: whichever stage raises a rate-limit SDKError on every execution —
the OCR stage or the chat stage — the handler executes that stage exactly
max_retries = 5 times, sleeps the doubling backoff sequence 2, 4, 8, 16
between consecutive attempts, and then returns a degraded payload. -/
theorem C2_theorem (env : ExtractEnv) (req : ExtractRequest)
    (b64 : String) (rest : List String) (him : req.imageDataList = b64 :: rest)
    (msgs : Nat → String)
    (hrl : ∀ i, occursIn rateLimitText (msgs i) = true) :
    ((∀ i bd, env.ocr i bd = .sdkError (msgs i)) →
      (extract_route env req).final.ocrCalls = 5 ∧
      (extract_route env req).final.sleeps = [2, 4, 8, 16] ∧
      (extract_route env req).result =
        .ok (genericLimitPayload (req.language.getD "python")) ∧
      (extract_route env req).final.chatCalls = 0) ∧
    (∀ mds : Nat → String,
      (∀ i bd, env.ocr i bd = .ok (mds i)) →
      (∀ i bd md, env.chat i bd md = .sdkError (msgs i)) →
      (extract_route env req).final.chatCalls = 5 ∧
      (extract_route env req).final.sleeps = [2, 4, 8, 16] ∧
      (extract_route env req).result =
        .ok (ocrDegradedPayload (mds 4) (req.language.getD "python")) ∧
      (extract_route env req).final.ocrCalls = 5) := by
  constructor
  · intro hocr
    simp [extract_route, him, extractLoop, hocr, hrl, initExtractState]
  · intro mds hocr hchat
    simp [extract_route, him, extractLoop, hocr, hchat, hrl, initExtractState]

/-- C2 witness: both stage instances at concrete always-rate-limited
environments. -/
theorem C2_witness :
    ((extract_route envOcrAlwaysRL reqOne).final.ocrCalls = 5 ∧
     (extract_route envOcrAlwaysRL reqOne).final.sleeps = [2, 4, 8, 16] ∧
     (extract_route envOcrAlwaysRL reqOne).result =
       .ok (genericLimitPayload (reqOne.language.getD "python")) ∧
     (extract_route envOcrAlwaysRL reqOne).final.chatCalls = 0) ∧
    ((extract_route envChatAlwaysRL reqOne).final.chatCalls = 5 ∧
     (extract_route envChatAlwaysRL reqOne).final.sleeps = [2, 4, 8, 16] ∧
     (extract_route envChatAlwaysRL reqOne).result =
       .ok (ocrDegradedPayload "OCRTEXT" (reqOne.language.getD "python")) ∧
     (extract_route envChatAlwaysRL reqOne).final.ocrCalls = 5) :=
  ⟨(C2_theorem envOcrAlwaysRL reqOne "imgdata" [] rfl (fun _ => rateLimitText)
      (fun _ => occursIn_rateLimit_self)).1 (fun _ _ => rfl),
   (C2_theorem envChatAlwaysRL reqOne "imgdata" [] rfl (fun _ => rateLimitText)
      (fun _ => occursIn_rateLimit_self)).2 (fun _ => "OCRTEXT")
      (fun _ _ => rfl) (fun _ _ _ => rfl)⟩

/-- C3 counterexample: a problemInfo of the object shape {title, problem,
code} is rejected with HTTP 400, it does not proceed to generation. -/
theorem C3_counterexample :
    generate_route (.ok "GENERATED") reqGenObj = .httpError 400 badProblemInfoMsg :=
  rfl

/-- C3 amended: /api/generate raises HTTP 400 exactly when problemInfo is
missing, not a string (an object of shape {title, problem, code}
included), or a string that strips to empty; only a problemInfo that is a
non-whitespace string proceeds, returning a payload with the single key
code holding the generated string when the model call succeeds. -/
theorem C3_theorem (out : GenOutcome) (req : GenerateRequest) :
    (generate_route out req = .httpError 400 badProblemInfoMsg ↔
      problemInfoOk req.problemInfo = false) ∧
    (∀ c, out = .ok c → problemInfoOk req.problemInfo = true →
      generate_route out req = .ok (.obj [("code", .str c)])) := by
  constructor
  · cases h : problemInfoOk req.problemInfo <;> cases out <;> simp [generate_route, h]
  · intro c hc hok
    subst hc
    simp [generate_route, hok]

/-- C3 witness: a non-empty string problemInfo proceeds to generation. -/
theorem C3_witness :
    generate_route (.ok "CODE") reqGenGood = .ok (.obj [("code", .str "CODE")]) :=
  (C3_theorem (.ok "CODE") reqGenGood).2 "CODE" rfl (by decide)

/-- C4 counterexample: OCR succeeds on attempts 0 to 3 (so OCR text is in
locals) and the chat call is rate limited there; on attempt 4 the OCR call
itself is rate limited and retries exhaust: the payload carries the
generic rate-limit message, not a truncated prefix of the existing OCR
text. -/
theorem C4_counterexample :
    (extract_route envOcrRLAtEnd reqOne).result = .ok (genericLimitPayload "python") ∧
    (extract_route envOcrRLAtEnd reqOne).final.ocrMd = some "OCRPARTIAL" :=
  ⟨rfl, rfl⟩

/-- C4 amended: only the chat-stage rate-limit exhaustion inspects the
partial OCR output: there the payload problemInfo is the OCR text
truncated to 500 characters between the indicator text and an ellipsis;
when rate-limit exhaustion instead happens at the OCR stage, the generic
rate-limit message is returned even if OCR text from an earlier iteration
is still in locals. -/
theorem C4_theorem (env : ExtractEnv) (req : ExtractRequest)
    (b64 : String) (rest : List String) (him : req.imageDataList = b64 :: rest) :
    (∀ (mds : Nat → String) (m : String),
      (∀ i bd, env.ocr i bd = .ok (mds i)) →
      (∀ i bd md, env.chat i bd md = .sdkError m) →
      occursIn rateLimitText m = true →
      (extract_route env req).result =
        .ok (ocrDegradedPayload (mds 4) (req.language.getD "python"))) ∧
    (∀ (mds : Nat → String) (m : String),
      (∀ i bd, env.ocr i bd = if i = 4 then .sdkError m else .ok (mds i)) →
      (∀ i bd md, env.chat i bd md = .sdkError m) →
      occursIn rateLimitText m = true →
      (extract_route env req).result =
        .ok (genericLimitPayload (req.language.getD "python")) ∧
      (extract_route env req).final.ocrMd = some (mds 3)) := by
  constructor
  · intro mds m hocr hchat hm
    simp [extract_route, him, extractLoop, hocr, hchat, hm, initExtractState]
  · intro mds m hocr hchat hm
    simp [extract_route, him, extractLoop, hocr, hchat, hm, initExtractState]

/-- C4 witness: both amended branches at concrete environments. -/
theorem C4_witness :
    (extract_route envChatAlwaysRL reqOne).result =
      .ok (ocrDegradedPayload "OCRTEXT" "python") ∧
    (extract_route envOcrRLAtEnd reqOne).result = .ok (genericLimitPayload "python") ∧
    (extract_route envOcrRLAtEnd reqOne).final.ocrMd = some "OCRPARTIAL" := by
  refine ⟨?_, ?_, ?_⟩
  · exact (C4_theorem envChatAlwaysRL reqOne "imgdata" [] rfl).1
      (fun _ => "OCRTEXT") rateLimitText (fun _ _ => rfl) (fun _ _ _ => rfl) (by decide)
  · exact ((C4_theorem envOcrRLAtEnd reqOne "imgdata" [] rfl).2
      (fun _ => "OCRPARTIAL") rateLimitText (fun _ _ => rfl) (fun _ _ _ => rfl) (by decide)).1
  · exact ((C4_theorem envOcrRLAtEnd reqOne "imgdata" [] rfl).2
      (fun _ => "OCRPARTIAL") rateLimitText (fun _ _ => rfl) (fun _ _ _ => rfl) (by decide)).2

/-- C5: an unclassified error at the first attempt, from either stage,
terminates immediately with HTTP 500: no sleep, no retry, no further
external call.  Unclassified covers both exceptions outside the handled
classes and SDKErrors whose message lacks the rate-limit marker. -/
theorem C5_theorem (env : ExtractEnv) (req : ExtractRequest)
    (b64 : String) (rest : List String) (him : req.imageDataList = b64 :: rest)
    (msg : String) :
    (env.ocr 0 b64 = .otherError msg →
      (extract_route env req).result = .httpError 500 (unexpectedMsg msg) ∧
      (extract_route env req).final.sleeps = [] ∧
      (extract_route env req).final.ocrCalls = 1 ∧
      (extract_route env req).final.chatCalls = 0 ∧
      (extract_route env req).final.iterations = 1) ∧
    (env.ocr 0 b64 = .sdkError msg → occursIn rateLimitText msg = false →
      (extract_route env req).result = .httpError 500 (unexpectedMsg msg) ∧
      (extract_route env req).final.sleeps = [] ∧
      (extract_route env req).final.ocrCalls = 1 ∧
      (extract_route env req).final.chatCalls = 0 ∧
      (extract_route env req).final.iterations = 1) ∧
    (∀ md, env.ocr 0 b64 = .ok md → env.chat 0 b64 md = .otherError msg →
      (extract_route env req).result = .httpError 500 (unexpectedMsg msg) ∧
      (extract_route env req).final.sleeps = [] ∧
      (extract_route env req).final.ocrCalls = 1 ∧
      (extract_route env req).final.chatCalls = 1 ∧
      (extract_route env req).final.iterations = 1) ∧
    (∀ md, env.ocr 0 b64 = .ok md → env.chat 0 b64 md = .sdkError msg →
      occursIn rateLimitText msg = false →
      (extract_route env req).result = .httpError 500 (unexpectedMsg msg) ∧
      (extract_route env req).final.sleeps = [] ∧
      (extract_route env req).final.ocrCalls = 1 ∧
      (extract_route env req).final.chatCalls = 1 ∧
      (extract_route env req).final.iterations = 1) := by
  refine ⟨?_, ?_, ?_, ?_⟩
  · intro h
    simp [extract_route, him, extractLoop, h, initExtractState]
  · intro h hrl
    simp [extract_route, him, extractLoop, h, hrl, initExtractState]
  · intro md h hc
    simp [extract_route, him, extractLoop, h, hc, initExtractState]
  · intro md h hc hrl
    simp [extract_route, him, extractLoop, h, hc, hrl, initExtractState]

/-- C5 witness: an unclassified OCR exception at the first attempt. -/
theorem C5_witness :
    (extract_route envOcrOther reqOne).result = .httpError 500 (unexpectedMsg "boom") ∧
    (extract_route envOcrOther reqOne).final.sleeps = [] ∧
    (extract_route envOcrOther reqOne).final.ocrCalls = 1 ∧
    (extract_route envOcrOther reqOne).final.chatCalls = 0 ∧
    (extract_route envOcrOther reqOne).final.iterations = 1 :=
  (C5_theorem envOcrOther reqOne "imgdata" [] rfl "boom").1 rfl

/-- C6: whenever the chat completion succeeds but its content fails JSON
parsing, from any loop state with fuel remaining, the handler returns the
structured fallback payload with the raw content truncated to 500
characters and the request language, rather than letting the error
propagate; in particular so at the route boundary. -/
theorem C6_theorem (env : ExtractEnv) (md c : String) (hparse : env.parse c = none) :
    (∀ (language b64 : String) (mr n : Nat) (st : ExtractState),
      env.ocr st.attempt b64 = .ok md →
      env.chat st.attempt b64 md = .ok c →
      (extractLoop env language b64 mr (n + 1) st).result =
        .ok (parseFallbackPayload c language)) ∧
    (∀ (req : ExtractRequest) (b64 : String) (rest : List String),
      req.imageDataList = b64 :: rest →
      env.ocr 0 b64 = .ok md →
      env.chat 0 b64 md = .ok c →
      (extract_route env req).result =
        .ok (parseFallbackPayload c (req.language.getD "python"))) := by
  constructor
  · intro language b64 mr n st hocr hchat
    simp [extractLoop, hocr, hchat, hparse]
  · intro req b64 rest him hocr hchat
    simp [extract_route, him, extractLoop, hocr, hchat, hparse, initExtractState]

/-- C6 witness: the route-level fallback at a concrete environment. -/
theorem C6_witness :
    (extract_route envParseFail reqOne).result =
      .ok (parseFallbackPayload "not json" "python") :=
  (C6_theorem envParseFail "OCRTEXT" "not json" rfl).2 reqOne "imgdata" [] rfl rfl rfl

/-- C7: after a chat-stage rate limit with attempts remaining, the next
iteration re-runs the whole pipeline: the OCR call executes again, and the
retried chat call is applied to the fresh OCR output of that iteration,
not to the earlier one. -/
theorem C7_theorem (env : ExtractEnv) (req : ExtractRequest)
    (b64 : String) (rest : List String) (him : req.imageDataList = b64 :: rest)
    (md0 md1 c m : String) (v : JsonVal)
    (hocr0 : env.ocr 0 b64 = .ok md0)
    (hchat0 : env.chat 0 b64 md0 = .sdkError m)
    (hm : occursIn rateLimitText m = true)
    (hocr1 : env.ocr 1 b64 = .ok md1)
    (hchat1 : env.chat 1 b64 md1 = .ok c)
    (hparse : env.parse c = some v) :
    (extract_route env req).result = .ok v ∧
    (extract_route env req).final.ocrCalls = 2 ∧
    (extract_route env req).final.chatCalls = 2 ∧
    (extract_route env req).final.sleeps = [2] := by
  simp [extract_route, him, extractLoop, hocr0, hchat0, hm, hocr1, hchat1, hparse,
        initExtractState]

/-- C7 witness: an environment whose attempt-1 chat call only succeeds on
the attempt-1 OCR output shows the pipeline restarts and feeds the fresh
output forward. -/
theorem C7_witness :
    (extract_route envRestart reqOne).result = .ok (.obj []) ∧
    (extract_route envRestart reqOne).final.ocrCalls = 2 ∧
    (extract_route envRestart reqOne).final.chatCalls = 2 ∧
    (extract_route envRestart reqOne).final.sleeps = [2] :=
  C7_theorem envRestart reqOne "imgdata" [] rfl "FIRSTMD" "SECONDMD" "goodjson"
    rateLimitText (.obj []) rfl rfl (by decide) rfl rfl rfl

/-- C10: on the success path the parsed JSON value from the chat response
is returned verbatim, whatever its shape: no key of the promised interface
is checked. -/
theorem C10_theorem (env : ExtractEnv) (req : ExtractRequest)
    (b64 : String) (rest : List String) (him : req.imageDataList = b64 :: rest)
    (md c : String) (v : JsonVal)
    (hocr : env.ocr 0 b64 = .ok md)
    (hchat : env.chat 0 b64 md = .ok c)
    (hparse : env.parse c = some v) :
    (extract_route env req).result = .ok v := by
  simp [extract_route, him, extractLoop, hocr, hchat, hparse, initExtractState]

/-- C10 witness: a parsed JSON array, which has neither a problemInfo nor
a language key, is passed through unchanged. -/
theorem C10_witness :
    (extract_route envParsePass reqOne).result = .ok (.arr []) :=
  C10_theorem envParsePass reqOne "imgdata" [] rfl "OCRTEXT" "[]" (.arr [])
    rfl rfl rfl

end CodeAssist
